import Mathlib

/-
Verification of the elevenlabs-mcp utility core: a shallow embedding of
src/elevenlabs_mcp/utils.py and the validation preludes of two tools from
src/elevenlabs_mcp/server.py, with theorems settling the specification
claims about path resolution, filename synthesis, input validation,
content spooling and validation/network ordering.

Paths are modelled as plain strings with POSIX semantics (absolute means
a leading slash).  The filesystem is modelled as predicates on path
strings plus a directory tree used by the recursive walk.  The fuzzy
similarity scorer (the external fuzzywuzzy library, not code of this
repository) is a parameter.  Timestamps and fresh temporary-file names
are parameters supplied by the environment.
-/

namespace ElevenLabsMcp

/-- Model of posix os.path.isabs: a path is absolute iff it starts with a slash. -/
def isAbs (p : String) : Bool :=
  p.data.head? = some '/'

/-- Model of pathlib parent: drop the last path component; a string with no
slash has parent the current directory, and the parent of a top-level
entry is the root. -/
def parentPath (p : String) : String :=
  match (p.data.reverse.dropWhile (fun c => c ≠ '/')) with
  | [] => "."
  | ['/'] => "/"
  | _ :: rest => String.mk rest.reverse

/-- Model of pathlib name / os.path.basename: the last path component. -/
def baseName (p : String) : String :=
  String.mk ((p.data.reverse.takeWhile (fun c => c ≠ '/')).reverse)

/-- Model of pathlib slash-join (and os.path.join for one component): an
absolute right operand discards the left operand, otherwise the parts are
joined with a separating slash. -/
def pathJoin (a b : String) : String :=
  if isAbs b then b
  else
    match a.data.getLast? with
    | some '/' => a ++ b
    | _ => a ++ "/" ++ b

/-- Model of os.path.expanduser for the bare-home forms: a path that is
exactly a tilde, or starts with tilde-slash, has the tilde replaced by the
home directory; anything else (including the other-user tilde forms, which
this repository never produces) is returned unchanged. -/
def expanduser (home : String) (p : String) : String :=
  if p = "~" then home
  else if p.data.head? = some '~' ∧ p.data.tail.head? = some '/' then
    home ++ String.mk p.data.tail
  else p

/-- Model of pathlib suffix: the extension of the last component including
its dot, empty when the last dot of the name is absent, leading or
trailing. -/
def pathSuffix (p : String) : String :=
  let rev := (baseName p).data.reverse
  match rev.findIdx? (fun c => c = '.') with
  | none => ""
  | some j =>
      if 0 < j ∧ j < rev.length - 1 then String.mk ((rev.take (j + 1)).reverse)
      else ""

/-- Model of str.lower applied characterwise. -/
def lowerStr (s : String) : String :=
  String.mk (s.data.map Char.toLower)

/-- Model of str.capitalize: first character uppercased, the rest lowercased. -/
def capitalize (s : String) : String :=
  match s.data with
  | [] => ""
  | c :: rest => String.mk (c.toUpper :: rest.map Char.toLower)

/-- Truthiness of an optional environment string, as Python sees it:
present and non-empty. -/
def envTruthy (e : Option String) : Bool :=
  match e with
  | none => false
  | some s => s ≠ ""

mutual
/-- Directory tree used to model the filesystem layout walked by os.walk:
a node carries its directly contained file names and its named subtrees. -/
inductive DirTree : Type where
  | node : List String → DirForest → DirTree
/-- List of named subtrees of a directory. -/
inductive DirForest : Type where
  | nil : DirForest
  | cons : String → DirTree → DirForest → DirForest
end

mutual
/-- Model of os.walk in top-down order: every (root, filename) pair, the
files of a directory before those of its subdirectories, subdirectories
in listed order. -/
def walkFiles (root : String) : DirTree → List (String × String)
  | .node files subs => files.map (fun f => (root, f)) ++ walkForest root subs
/-- Walk of a forest of subtrees under a common root. -/
def walkForest (root : String) : DirForest → List (String × String)
  | .nil => []
  | .cons d t rest => walkFiles (pathJoin root d) t ++ walkForest root rest
end

/-- Filesystem state: existence, regular-file and write-permission
predicates on path strings, the directory tree seen by os.walk under a
given directory, and the external fuzzywuzzy token_sort_ratio scorer. -/
structure Fs where
  pathExists : String → Bool
  isFile : String → Bool
  writable : String → Bool
  treeAt : String → DirTree
  score : String → String → Nat

/-- Insertion into a descending-by-score list, keeping an earlier element
ahead of later elements with equal score (Python stable sort). -/
def insertDescBySnd (x : String × Nat) : List (String × Nat) → List (String × Nat)
  | [] => [x]
  | y :: ys => if x.2 < y.2 then y :: insertDescBySnd x ys else x :: y :: ys

/-- Stable descending sort by score, as list.sort with a score key and
reverse=True produces. -/
def sortDescBySnd : List (String × Nat) → List (String × Nat)
  | [] => []
  | x :: xs => insertDescBySnd x (sortDescBySnd xs)

/-- All strict ancestors of a path together with the path itself, computed
by iterating parentPath with fuel until it reaches a fixed point. -/
def ancestorList (p : String) (fuel : Nat) : List String :=
  match fuel with
  | 0 => [p]
  | n + 1 =>
      let par := parentPath p
      if par = p then [p] else p :: ancestorList par n

/-- Effect of Path.mkdir with parents=True, exist_ok=True: the path and
all its ancestors exist afterwards, everything else is unchanged. -/
def mkdirParents (fs : Fs) (p : String) : Fs :=
  { fs with pathExists := fun q => fs.pathExists q || (ancestorList p p.length).contains q }

/-- Embedding of utils.is_file_writeable: write permission on the path if
it exists, otherwise on its parent. -/
def is_file_writeable (fs : Fs) (path : String) : Bool :=
  if fs.pathExists path then fs.writable path
  else fs.writable (parentPath path)

/-- Embedding of utils.make_output_file; the strftime timestamp is the
parameter now. -/
def make_output_file (tool : String) (text : String) (output_path : String)
    (extension : String) (full_id : Bool) (now : String) : String :=
  let id := if full_id then text else String.mk (text.data.take 5)
  let output_file_name :=
    tool ++ "_" ++ String.mk (id.data.map (fun c => if c = ' ' then '_' else c))
      ++ "_" ++ now ++ "." ++ extension
  pathJoin output_path output_file_name

/-- The output-path selection inlined in utils.make_output_path lines
35-41: the Desktop default, the base-relative join, or the tilde-expanded
directory. -/
def resolveOutputPath (home : String) (output_directory : Option String)
    (base_path : Option String) : String :=
  match output_directory with
  | none => pathJoin home ("Desktop")
  | some od =>
      if isAbs od = false ∧ envTruthy base_path = true then
        pathJoin (expanduser home (base_path.getD (""))) od
      else expanduser home od

/-- Embedding of utils.make_output_path: resolve the directory, fail when
it is not writeable, otherwise create it (with parents) and return it
together with the updated filesystem. -/
def make_output_path (home : String) (fs : Fs) (output_directory : Option String)
    (base_path : Option String) : Except String String × Fs :=
  if is_file_writeable fs (resolveOutputPath home output_directory base_path) = false then
    (.error ("Directory (" ++ resolveOutputPath home output_directory base_path
       ++ ") is not writeable"), fs)
  else
    (.ok (resolveOutputPath home output_directory base_path),
     mkdirParents fs (resolveOutputPath home output_directory base_path))

/-- Embedding of utils.check_audio_file: the lowercased suffix is one of
the ten recognized audio/video extensions. -/
def check_audio_file (path : String) : Bool :=
  [".wav", ".mp3", ".m4a", ".aac", ".ogg", ".flac", ".mp4", ".avi", ".mov", ".wmv"].contains
    (lowerStr (pathSuffix path))

/-- Embedding of utils.find_similar_filenames: walk the directory, skip
the target file itself, keep candidates whose score reaches the
threshold, and sort descending by score. -/
def find_similar_filenames (score : String → String → Nat) (target_file : String)
    (directory : String) (tree : DirTree) (threshold : Nat) : List (String × Nat) :=
  let target_filename := baseName target_file
  let similar_files := (walkFiles directory tree).filterMap (fun rf =>
    if rf.2 = target_filename ∧ pathJoin rf.1 rf.2 = target_file then none
    else
      let similarity := score target_filename rf.2
      if threshold ≤ similarity then some (pathJoin rf.1 rf.2, similarity) else none)
  sortDescBySnd similar_files

/-- Embedding of utils.try_find_similar_files: take the first take_n
scored candidates and keep those recognized as audio/video. -/
def try_find_similar_files (score : String → String → Nat) (filename : String)
    (directory : String) (tree : DirTree) (take_n : Nat) : List String :=
  let similar_files := find_similar_filenames score filename directory tree 70
  if similar_files = [] then []
  else ((similar_files.take take_n).filter (fun ps => check_audio_file ps.1)).map (fun ps => ps.1)

/-- Embedding of utils.handle_input_file over the environment base path
and the filesystem; errors are returned as messages, success returns the
validated path. -/
def handle_input_file (envBasePath : Option String) (fs : Fs) (file_path : String)
    (audio_content_check : Bool) : Except String String :=
  if isAbs file_path = false ∧ envTruthy envBasePath = false then
    .error ("File path must be an absolute path if ELEVENLABS_MCP_BASE_PATH is not set")
  else
    if fs.pathExists file_path = false ∧ fs.pathExists (parentPath file_path) = true then
      if try_find_similar_files fs.score (baseName file_path) (parentPath file_path)
          (fs.treeAt (parentPath file_path)) 5 ≠ [] then
        .error ("File (" ++ file_path ++ ") does not exist. Did you mean any of these files: "
          ++ String.intercalate (",")
              (try_find_similar_files fs.score (baseName file_path) (parentPath file_path)
                (fs.treeAt (parentPath file_path)) 5) ++ "?")
      else
        .error ("File (" ++ file_path ++ ") does not exist")
    else if fs.pathExists file_path = false then
      .error ("File (" ++ file_path ++ ") does not exist")
    else if fs.isFile file_path = false then
      .error ("File (" ++ file_path ++ ") is not a file")
    else if audio_content_check = true ∧ check_audio_file file_path = false then
      .error ("File (" ++ file_path ++ ") is not an audio or video file")
    else
      .ok file_path

/-- Embedding of utils.handle_large_text: the temporary-file name chosen
by tempfile is the parameter tempPath, and file contents are a partial map
from names to text; the result is the returned string together with the
updated contents map. -/
def handle_large_text (tempPath : String) (tfs : String → Option String) (text : String)
    (max_length : Nat) (content_type : String) : String × (String → Option String) :=
  if max_length < text.length then
    (capitalize content_type ++ " saved to temporary file: " ++ tempPath
      ++ "\nUse the Read tool to access the full " ++ content_type ++ ".",
     fun q => if q = tempPath then some text else tfs q)
  else
    (text, tfs)

/-- Voice metadata returned by the remote API; the name field is optional
in the API schema. -/
structure Voice where
  name : Option String
  voice_id : String

/-- Observable remote interaction: one outbound request to the named
remote endpoint. -/
inductive Event : Type where
  | net : String → Event
deriving DecidableEq, Repr

/-- Environment of a tool invocation: process-wide configuration (home,
base path), the filesystem, remote responses for the voice lookups, and
the strftime timestamp. -/
structure ServerEnv where
  home : String
  basePath : Option String
  fs : Fs
  voicesGet : String → Voice
  voicesSearch : String → List Voice
  now : String

/-- Default voice id from server.py. -/
def DEFAULT_VOICE_ID : String := "cgSgspJ2msm6clMCkdW9"

/-- Continuation of server.text_to_speech after the voice lookup (lines
136 onward): output-path resolution, filename synthesis, the convert call
and the success message; pre is the trace accumulated so far. -/
def tts_continue (env : ServerEnv) (pre : List Event) (voice : Option Voice)
    (text : String) (output_directory : Option String) : List Event × Except String String :=
  match make_output_path env.home env.fs output_directory env.basePath with
  | (.error e, _) => (pre, .error e)
  | (.ok output_path, _) =>
      let output_file_name := make_output_file ("tts") text output_path ("mp3") false env.now
      let voiceLabel := match voice with
        | some v => match v.name with
          | some n => n
          | none => "None"
        | none => DEFAULT_VOICE_ID
      (pre ++ [Event.net ("text_to_speech.convert")],
       .ok ("Success. File saved as: " ++ pathJoin output_path output_file_name
         ++ ". Voice used: " ++ voiceLabel))

/-- Embedding of server.text_to_speech lines 102-167 as a trace-producing
function: the value is the list of remote requests issued together with
the outcome. -/
def text_to_speech (env : ServerEnv) (text : String) (voice_name : Option String)
    (output_directory : Option String) (voice_id : Option String) :
    List Event × Except String String :=
  if text = "" then ([], .error ("Text is required."))
  else if voice_id.isSome = true ∧ voice_name.isSome = true then
    ([], .error ("voice_id and voice_name cannot both be provided."))
  else
    match voice_id, voice_name with
    | some vid, _ =>
        tts_continue env [Event.net ("voices.get")] (some (env.voicesGet vid)) text output_directory
    | none, some vn =>
        let voices := env.voicesSearch vn
        if voices.length = 0 then
          ([Event.net ("voices.search")], .error ("No voices found with that name."))
        else
          match voices.find? (fun v => v.name = some vn) with
          | none =>
              ([Event.net ("voices.search")],
               .error ("Voice with name: " ++ vn ++ " does not exist."))
          | some v => tts_continue env [Event.net ("voices.search")] (some v) text output_directory
    | none, none => tts_continue env [] none text output_directory

/-- Embedding of server.speech_to_speech lines 717-754 as a
trace-producing function; the voice search request is issued first, then
the input file and output path are validated, then the convert call. -/
def speech_to_speech (env : ServerEnv) (input_file_path : String) (voice_name : String)
    (output_directory : Option String) : List Event × Except String String :=
  let voices := env.voicesSearch voice_name
  if voices.length = 0 then
    ([Event.net ("voices.search")], .error ("No voice found with that name."))
  else
    match voices.find? (fun v => v.name = some voice_name) with
    | none =>
        ([Event.net ("voices.search")],
         .error ("Voice with name: " ++ voice_name ++ " does not exist."))
    | some _ =>
        match handle_input_file env.basePath env.fs input_file_path true with
        | .error e => ([Event.net ("voices.search")], .error e)
        | .ok file_path =>
            match make_output_path env.home env.fs output_directory env.basePath with
            | (.error e, _) => ([Event.net ("voices.search")], .error e)
            | (.ok output_path, _) =>
                let output_file_name :=
                  make_output_file ("sts") (baseName file_path) output_path ("mp3") false env.now
                ([Event.net ("voices.search"), Event.net ("speech_to_speech.convert")],
                 .ok ("Success. File saved as: " ++ pathJoin output_path output_file_name))

/-- Reference definition of the resolved output directory, written from
the words of the spec: the home Desktop default, tilde-expanded base path
joined with a relative directory, or the tilde-expanded directory itself. -/
def make_output_path_spec (home : String) (output_directory : Option String)
    (base_path : Option String) : String :=
  match output_directory with
  | none => pathJoin home ("Desktop")
  | some od =>
      if isAbs od = false ∧ envTruthy base_path = true then
        pathJoin (expanduser home (base_path.getD (""))) od
      else expanduser home od

/-- Reference definition of the suggestion list, written from the words of
the spec: score every walked filename, keep scores of at least 70, sort
descending, take the first five, then keep the audio/video files. -/
def suggestionListSpec (score : String → String → Nat) (target : String)
    (directory : String) (tree : DirTree) : List String :=
  (((sortDescBySnd (((walkFiles directory tree).map
      (fun rf => (pathJoin rf.1 rf.2, score (baseName target) rf.2))).filter
        (fun ps => 70 ≤ ps.2))).take 5).filter
    (fun ps => check_audio_file ps.1)).map (fun ps => ps.1)

/-- Filesystem in which every path exists, is a regular file and is
writable; the walk tree is empty and the scorer constant. -/
def fsAllWritable : Fs :=
  ⟨fun _ => true, fun _ => true, fun _ => true, fun _ => .node [] .nil, fun _ _ => 0⟩

/-- Filesystem for the suggestion scenario: only the directory /d exists,
it contains clip1.mp3 and notes.txt, and the scorer rates clip1.mp3 at 80
against any target and everything else at 10. -/
def fsSuggest : Fs :=
  ⟨fun p => p = "/d", fun _ => false, fun _ => true,
   fun _ => .node ["clip1.mp3", "notes.txt"] .nil,
   fun _ f => if f = "clip1.mp3" then 80 else 10⟩

/-- Server environment with no configured base path, a fully writable
filesystem, and a remote voice search that returns one voice carrying the
searched name. -/
def envAdam : ServerEnv :=
  ⟨"/home/u", none, fsAllWritable, fun i => ⟨some "V", i⟩,
   fun n => [⟨some n, "id1"⟩], "20250101_000000"⟩

/-- Server environment like envAdam except that the directory /ro is not
writable. -/
def envRo : ServerEnv :=
  ⟨"/home/u", none,
   ⟨fun _ => true, fun _ => true, fun p => p ≠ "/ro", fun _ => .node [] .nil, fun _ _ => 0⟩,
   fun i => ⟨some "V", i⟩, fun n => [⟨some n, "id1"⟩], "20250101_000000"⟩

/-- Reference content component of the synthesized filename, written from
the words of the spec: truncate to the first five code points unless the
full identifier is requested, then replace spaces by underscores. -/
def fragmentContent (text : String) (full_id : Bool) : String :=
  String.mk ((if full_id then text.data else text.data.take 5).map
    (fun c => if c = ' ' then '_' else c))

lemma data_ne_nil_of_ne_empty {s : String} (h : s ≠ "") : s.data ≠ [] := by
  intro hd
  exact h (String.ext hd)

lemma length_pos_of_ne_empty {s : String} (h : s ≠ "") : 0 < s.length := by
  have hd := data_ne_nil_of_ne_empty h
  have hlen : 0 < s.data.length := List.length_pos.mpr hd
  exact hlen

lemma isAbs_append_left {a : String} (b : String) (h : a.data ≠ []) :
    isAbs (a ++ b) = isAbs a := by
  unfold isAbs
  rw [String.data_append]
  rcases hd : a.data with _ | ⟨c, t⟩
  · exact absurd hd h
  · simp

lemma data_ne_nil_of_isAbs {a : String} (h : isAbs a = true) : a.data ≠ [] := by
  intro hd
  unfold isAbs at h
  rw [hd] at h
  simp at h

lemma isAbs_pathJoin_left {a : String} (b : String) (h : isAbs a = true) :
    isAbs (pathJoin a b) = true := by
  have ha : a.data ≠ [] := data_ne_nil_of_isAbs h
  unfold pathJoin
  split
  · assumption
  · split
    · rw [isAbs_append_left _ ha]; exact h
    · first
      | (rw [isAbs_append_left _ ha]; exact h)
      | (rw [isAbs_append_left b (by rw [String.data_append]; simp),
            isAbs_append_left _ ha]; exact h)

lemma slash_mem_pathJoin (a b : String) : '/' ∈ (pathJoin a b).data := by
  unfold pathJoin
  split
  · next hb =>
      unfold isAbs at hb
      simp only [decide_eq_true_eq] at hb
      exact List.mem_of_mem_head? (by simp [hb])
  · split
    · next hg =>
        have hmem : '/' ∈ a.data := List.mem_of_mem_getLast? (by simp [hg])
        rw [String.data_append]
        exact List.mem_append_left _ hmem
    · first
      | (rw [String.data_append, String.data_append]; simp)
      | (rw [String.data_append]; simp [String.data_append])

lemma pathJoin_ne_of_no_slash {t : String} (a b : String) (h : '/' ∉ t.data) :
    pathJoin a b ≠ t := by
  intro he
  exact h (he ▸ slash_mem_pathJoin a b)

lemma no_slash_baseName (p : String) : '/' ∉ (baseName p).data := by
  unfold baseName
  intro hmem
  have hmem2 : '/' ∈ p.data.reverse.takeWhile (fun c => c ≠ '/') := by
    simpa [List.mem_reverse] using hmem
  have := List.mem_takeWhile_imp hmem2
  simp at this

lemma baseName_eq_self_of_no_slash {s : String} (h : '/' ∉ s.data) : baseName s = s := by
  unfold baseName
  apply String.ext
  show (s.data.reverse.takeWhile (fun c => c ≠ '/')).reverse = s.data
  have hall : s.data.reverse.takeWhile (fun c => c ≠ '/') = s.data.reverse := by
    rw [List.takeWhile_eq_self_iff]
    intro c hc
    have : c ∈ s.data := List.mem_reverse.mp hc
    simp only [decide_eq_true_eq]
    intro hceq
    exact h (hceq ▸ this)
  rw [hall, List.reverse_reverse]

lemma ne_of_length_ne {s t : String} (h : s.length ≠ t.length) : s ≠ t := by
  intro he
  exact h (he ▸ rfl)

lemma isAbs_pathJoin_rel {a : String} (b : String) (ha : a ≠ "") (hb : isAbs b = false)
    (h : isAbs a = false) : isAbs (pathJoin a b) = false := by
  have had : a.data ≠ [] := data_ne_nil_of_ne_empty ha
  unfold pathJoin
  split
  · next hcond => rw [hcond] at hb; exact absurd hb (by simp)
  · split
    · rw [isAbs_append_left _ had]; exact h
    · first
      | (rw [isAbs_append_left _ had]; exact h)
      | (rw [isAbs_append_left b (by rw [String.data_append]; simp),
            isAbs_append_left _ had]; exact h)

lemma expanduser_of_isAbs {home d : String} (h : isAbs d = true) :
    expanduser home d = d := by
  unfold expanduser
  have h1 : d ≠ "~" := by
    intro he
    rw [he] at h
    exact absurd h (by decide)
  have h2 : ¬(d.data.head? = some '~' ∧ d.data.tail.head? = some '/') := by
    intro ⟨hh, _⟩
    unfold isAbs at h
    rw [hh] at h
    exact absurd h (by decide)
  rw [if_neg h1, if_neg h2]

lemma make_output_path_ok_eq {home : String} {fs : Fs} {od bp : Option String} {p : String}
    (h : (make_output_path home fs od bp).1 = .ok p) :
    p = resolveOutputPath home od bp := by
  unfold make_output_path at h
  split at h
  · simp at h
  · simp only [Except.ok.injEq] at h
    exact h.symm

lemma self_mem_ancestorList (p : String) (fuel : Nat) : p ∈ ancestorList p fuel := by
  cases fuel with
  | zero => simp [ancestorList]
  | succ n => by_cases hpar : parentPath p = p <;> simp [ancestorList, hpar]

lemma mkdirParents_pathExists (fs : Fs) (p : String) :
    (mkdirParents fs p).pathExists p = true := by
  unfold mkdirParents
  simp [List.contains, self_mem_ancestorList]

lemma is_file_writeable_false_iff (fs : Fs) (p : String) :
    is_file_writeable fs p = false ↔
      ((fs.pathExists p = true ∧ fs.writable p = false) ∨
       (fs.pathExists p = false ∧ fs.writable (parentPath p) = false)) := by
  unfold is_file_writeable
  by_cases hex : fs.pathExists p = true <;>
    simp [hex, Bool.not_eq_true] <;> constructor <;> simp_all

lemma resolveOutputPath_none (home : String) (bp : Option String) :
    resolveOutputPath home none bp = pathJoin home ("Desktop") := rfl

lemma resolveOutputPath_some (home d : String) (bp : Option String) :
    resolveOutputPath home (some d) bp =
      if isAbs d = false ∧ envTruthy bp = true then
        pathJoin (expanduser home (bp.getD (""))) d
      else expanduser home d := rfl

/-- C2 counterexample: make_output_path can succeed returning a relative
path: with a relative output_directory foo and no configured base path it
returns foo itself, which is not absolute. -/
theorem make_output_path_relative_counterexample :
    (make_output_path "/home/u" fsAllWritable (some "foo") none).1 = .ok "foo"
      ∧ isAbs "foo" = false := by
  exact ⟨by rfl, by rfl⟩

/-- C2 amended: on success the resolved directory is absolute when the
directory is omitted (and home is absolute), when the directory is
absolute, or when a relative directory is joined onto a truthy base path
whose tilde-expansion is absolute; with no truthy base path a relative
directory is returned merely tilde-expanded, so a plain relative
directory yields itself, relative to the working directory. -/
theorem make_output_path_absoluteness (home : String) (fs : Fs) (od bp : Option String)
    (p : String) (h : (make_output_path home fs od bp).1 = .ok p) :
    (od = none → isAbs home = true → isAbs p = true)
    ∧ (∀ d, od = some d → isAbs d = true → p = d)
    ∧ (∀ d b, od = some d → bp = some b → isAbs d = false → b ≠ "" →
        isAbs (expanduser home b) = true → isAbs p = true)
    ∧ (∀ d, od = some d → isAbs d = false → envTruthy bp = false →
        p = expanduser home d) := by
  have hp : p = resolveOutputPath home od bp := make_output_path_ok_eq h
  subst hp
  refine ⟨?_, ?_, ?_, ?_⟩
  · intro hod hhome
    subst hod
    rw [resolveOutputPath_none]
    exact isAbs_pathJoin_left _ hhome
  · intro d hod hd
    subst hod
    rw [resolveOutputPath_some]
    rw [if_neg (by intro hc; rw [hd] at hc; exact absurd hc.1 (by simp))]
    exact expanduser_of_isAbs hd
  · intro d b hod hbp hd hb hexp
    subst hod
    subst hbp
    rw [resolveOutputPath_some]
    rw [if_pos ⟨hd, by simp [envTruthy, hb]⟩]
    exact isAbs_pathJoin_left _ (by simpa using hexp)
  · intro d hod hd hbt
    subst hod
    rw [resolveOutputPath_some]
    rw [if_neg (by intro hc; rw [hbt] at hc; exact absurd hc.2 (by simp))]

/-- Witness for the amended C2: the end-to-end scenario resolving reports
against the base path tilde-work with home /home/u succeeds and the
result /home/u/work/reports is absolute. -/
theorem make_output_path_absoluteness_witness :
    (make_output_path "/home/u" fsAllWritable (some "reports") (some "~/work")).1
        = .ok "/home/u/work/reports"
      ∧ isAbs "/home/u/work/reports" = true := by
  refine ⟨by rfl, ?_⟩
  exact (make_output_path_absoluteness "/home/u" fsAllWritable (some "reports")
      (some "~/work") "/home/u/work/reports" (by rfl)).2.2.1 "reports" "~/work"
      rfl rfl (by rfl) (by decide) (by rfl)

/-- C3: on success make_output_path returns exactly the reference path of
the spec (Desktop default, base-relative join, or tilde-expanded
directory) and the returned directory exists in the resulting
filesystem. -/
theorem make_output_path_matches_spec (home : String) (fs : Fs) (od bp : Option String)
    (p : String) (h : (make_output_path home fs od bp).1 = .ok p) :
    p = make_output_path_spec home od bp
      ∧ (make_output_path home fs od bp).2.pathExists p = true := by
  have hp : p = resolveOutputPath home od bp := make_output_path_ok_eq h
  constructor
  · rw [hp]
    rfl
  · by_cases hw : is_file_writeable fs (resolveOutputPath home od bp) = false
    · unfold make_output_path at h
      rw [if_pos hw] at h
      simp at h
    · unfold make_output_path
      rw [if_neg hw]
      rw [hp]
      exact mkdirParents_pathExists fs _

/-- Witness for C3: the scenario of the spec, reports under base
tilde-work with home /home/u, returns /home/u/work/reports and that
directory exists afterwards. -/
theorem make_output_path_matches_spec_witness :
    (make_output_path "/home/u" fsAllWritable (some "reports") (some "~/work")).1
        = .ok "/home/u/work/reports"
      ∧ ("/home/u/work/reports"
            = make_output_path_spec "/home/u" (some "reports") (some "~/work")
         ∧ (make_output_path "/home/u" fsAllWritable (some "reports")
              (some "~/work")).2.pathExists "/home/u/work/reports" = true) := by
  exact ⟨by rfl, make_output_path_matches_spec "/home/u" fsAllWritable (some "reports")
    (some "~/work") "/home/u/work/reports" (by rfl)⟩

/-- C8: make_output_path raises its not-writeable error exactly when the
writability check fails, namely when the resolved path exists and is not
writable, or does not exist and its parent is not writable; and whenever
it raises, the filesystem is returned unchanged (no directory created). -/
theorem make_output_path_writeable_iff (home : String) (fs : Fs) (od bp : Option String) :
    ((make_output_path home fs od bp).1 =
        .error ("Directory (" ++ resolveOutputPath home od bp ++ ") is not writeable")
      ↔ ((fs.pathExists (resolveOutputPath home od bp) = true ∧
            fs.writable (resolveOutputPath home od bp) = false) ∨
         (fs.pathExists (resolveOutputPath home od bp) = false ∧
            fs.writable (parentPath (resolveOutputPath home od bp)) = false)))
    ∧ (∀ e, (make_output_path home fs od bp).1 = .error e →
        (make_output_path home fs od bp).2 = fs) := by
  by_cases hw : is_file_writeable fs (resolveOutputPath home od bp) = false
  · constructor
    · rw [← is_file_writeable_false_iff]
      unfold make_output_path
      rw [if_pos hw]
      simp [hw]
    · intro e _
      unfold make_output_path
      rw [if_pos hw]
  · constructor
    · rw [← is_file_writeable_false_iff]
      unfold make_output_path
      rw [if_neg hw]
      simp [hw]
    · intro e he
      unfold make_output_path at he
      rw [if_neg hw] at he
      simp at he

/-- Witness for C8: with every path existing but /ro not writable, a
request for /ro raises the not-writeable error and leaves the filesystem
unchanged. -/
theorem make_output_path_writeable_iff_witness :
    (make_output_path "/home/u" envRo.fs (some "/ro") none).1
        = .error ("Directory (/ro) is not writeable")
      ∧ (make_output_path "/home/u" envRo.fs (some "/ro") none).2 = envRo.fs := by
  refine ⟨by rfl, ?_⟩
  exact (make_output_path_writeable_iff "/home/u" envRo.fs (some "/ro") none).2
    ("Directory (/ro) is not writeable") (by rfl)

/-- C9: a relative input path with no configured base path is rejected
with the configuration error for every filesystem, in particular also
when the file exists relative to the working directory: the check comes
before any existence test. -/
theorem handle_input_file_relative_no_base (env : Option String) (fs : Fs) (p : String)
    (acc : Bool) (hrel : isAbs p = false) (henv : envTruthy env = false) :
    handle_input_file env fs p acc =
      .error ("File path must be an absolute path if ELEVENLABS_MCP_BASE_PATH is not set") := by
  unfold handle_input_file
  rw [if_pos ⟨hrel, henv⟩]

/-- Witness for C9: the relative path clip.mp3 with no base path is
rejected even though the filesystem says it exists. -/
theorem handle_input_file_relative_no_base_witness :
    isAbs "clip.mp3" = false ∧ envTruthy none = false
      ∧ fsAllWritable.pathExists "clip.mp3" = true
      ∧ handle_input_file none fsAllWritable "clip.mp3" true =
          .error ("File path must be an absolute path if ELEVENLABS_MCP_BASE_PATH is not set") := by
  exact ⟨by rfl, by rfl, by rfl,
    handle_input_file_relative_no_base none fsAllWritable "clip.mp3" true (by rfl) (by rfl)⟩

/-- C7: handle_input_file never substitutes a file: a path that does not
exist never produces a success, and every success returns exactly the
supplied path. -/
theorem handle_input_file_no_substitution (env : Option String) (fs : Fs) (p : String)
    (acc : Bool) :
    (fs.pathExists p = false → ∀ q, handle_input_file env fs p acc ≠ .ok q)
    ∧ (∀ q, handle_input_file env fs p acc = .ok q → q = p) := by
  constructor
  · intro hne q
    unfold handle_input_file
    by_cases h1 : isAbs p = false ∧ envTruthy env = false
    · rw [if_pos h1]
      simp
    · rw [if_neg h1]
      by_cases h2 : fs.pathExists p = false ∧ fs.pathExists (parentPath p) = true
      · rw [if_pos h2]
        split <;> simp
      · rw [if_neg h2, if_pos hne]
        simp
  · intro q h
    unfold handle_input_file at h
    by_cases h1 : isAbs p = false ∧ envTruthy env = false
    · rw [if_pos h1] at h
      simp at h
    · rw [if_neg h1] at h
      by_cases h2 : fs.pathExists p = false ∧ fs.pathExists (parentPath p) = true
      · rw [if_pos h2] at h
        split at h <;> simp at h
      · rw [if_neg h2] at h
        by_cases h3 : fs.pathExists p = false
        · rw [if_pos h3] at h
          simp at h
        · rw [if_neg h3] at h
          by_cases h4 : fs.isFile p = false
          · rw [if_pos h4] at h
            simp at h
          · rw [if_neg h4] at h
            by_cases h5 : acc = true ∧ check_audio_file p = false
            · rw [if_pos h5] at h
              simp at h
            · rw [if_neg h5] at h
              simp at h
              exact h.symm

/-- Witness for C7: in a filesystem where /d/clip.mp3 is missing no
success is possible, and on the all-files filesystem the validated path
comes back unchanged. -/
theorem handle_input_file_no_substitution_witness :
    fsSuggest.pathExists "/d/clip.mp3" = false
      ∧ (∀ q, handle_input_file none fsSuggest "/d/clip.mp3" true ≠ .ok q)
      ∧ handle_input_file none fsAllWritable "/d/clip.mp3" true = .ok "/d/clip.mp3" := by
  refine ⟨by rfl, ?_, by rfl⟩
  exact (handle_input_file_no_substitution none fsSuggest "/d/clip.mp3" true).1 (by rfl)

/-- C5: handle_large_text returns the text with the file map untouched
exactly when the length is within the limit; an overlong text produces
exactly the reference message and a fresh temporary file holding the
original text character for character, all other files unchanged. -/
theorem handle_large_text_spec (tempPath : String) (tfs : String → Option String)
    (text : String) (max_length : Nat) (content_type : String)
    (hfresh : tfs tempPath = none) :
    ((handle_large_text tempPath tfs text max_length content_type = (text, tfs))
       ↔ text.length ≤ max_length)
    ∧ (max_length < text.length →
        (handle_large_text tempPath tfs text max_length content_type).1
            = capitalize content_type ++ " saved to temporary file: " ++ tempPath
              ++ "\nUse the Read tool to access the full " ++ content_type ++ "."
        ∧ (handle_large_text tempPath tfs text max_length content_type).2 tempPath
            = some text
        ∧ (∀ q, q ≠ tempPath →
            (handle_large_text tempPath tfs text max_length content_type).2 q = tfs q)) := by
  unfold handle_large_text
  by_cases hlen : max_length < text.length
  · rw [if_pos hlen]
    constructor
    · constructor
      · intro heq
        have h2 := congrArg Prod.snd heq
        simp only at h2
        have h3 := congrFun h2 tempPath
        rw [if_pos rfl, hfresh] at h3
        simp at h3
      · intro hle
        exact absurd hlen (by omega)
    · intro _
      refine ⟨rfl, by simp, ?_⟩
      intro q hq
      simp [hq]
  · rw [if_neg hlen]
    constructor
    · simp only [true_iff, Prod.mk.injEq]
      omega
    · intro hlt
      exact absurd hlt hlen

/-- Witness for C5: a three-character text with limit two is spooled: the
message references the file, the file holds the text, and with limit
three the text comes back unchanged. -/
theorem handle_large_text_spec_witness :
    ((fun _ => none : String → Option String) "/tmp/t.txt" = none)
      ∧ (handle_large_text "/tmp/t.txt" (fun _ => none) "abc" 2 "content").1
          = "Content saved to temporary file: /tmp/t.txt\nUse the Read tool to access the full content."
      ∧ (handle_large_text "/tmp/t.txt" (fun _ => none) "abc" 2 "content").2 "/tmp/t.txt"
          = some "abc"
      ∧ (handle_large_text "/tmp/t.txt" (fun _ => none) "abc" 3 "content"
          = ("abc", fun _ => none)) := by
  refine ⟨rfl, ?_, ?_, ?_⟩
  · exact (((handle_large_text_spec "/tmp/t.txt" (fun _ => none) "abc" 2 "content"
      rfl).2 (by decide)).1)
  · exact (((handle_large_text_spec "/tmp/t.txt" (fun _ => none) "abc" 2 "content"
      rfl).2 (by decide)).2.1)
  · exact ((handle_large_text_spec "/tmp/t.txt" (fun _ => none) "abc" 3 "content"
      rfl).1.mpr (by decide))

/-- C6: the synthesized output name is the tag, the content component,
the timestamp and the extension joined onto the target directory, where
the content component truncates to five code points before replacing
spaces (so the fragment Hi-space-there yields Hi_th) and a full
identifier is kept untruncated. -/
theorem make_output_file_shape (tool text output_path extension : String)
    (full_id : Bool) (now : String) :
    make_output_file tool text output_path extension full_id now
        = pathJoin output_path
            (tool ++ "_" ++ fragmentContent text full_id ++ "_" ++ now ++ "." ++ extension)
    ∧ make_output_file "tts" "Hi there" "/d" "mp3" false "20250101_000000"
        = "/d/tts_Hi_th_20250101_000000.mp3"
    ∧ make_output_file "vd" "voice_ABC123" "/d" "mp3" true "20250101_000000"
        = "/d/vd_voice_ABC123_20250101_000000.mp3" := by
  refine ⟨?_, by rfl, by rfl⟩
  unfold make_output_file fragmentContent
  cases full_id <;> rfl

lemma data_ne_nil_append_right (a : String) {b : String} (h : b.data ≠ []) :
    (a ++ b).data ≠ [] := by
  rw [String.data_append]
  intro hc
  exact h (List.append_eq_nil.mp hc).2

lemma data_ne_nil_append_left {a : String} (b : String) (h : a.data ≠ []) :
    (a ++ b).data ≠ [] := by
  rw [String.data_append]
  intro hc
  exact h (List.append_eq_nil.mp hc).1

lemma isAbs_append_underscore {tool : String} (h : isAbs tool = false) :
    isAbs (tool ++ "_") = false := by
  by_cases he : tool.data = []
  · unfold isAbs
    rw [String.data_append, he]
    decide
  · rw [isAbs_append_left _ he]
    exact h

lemma pathJoin_absorb {a b : String} (h : isAbs b = true) : pathJoin a b = b := by
  unfold pathJoin
  rw [if_pos h]

lemma isAbs_name_false (tool c now ext : String) (h : isAbs tool = false) :
    isAbs (tool ++ "_" ++ c ++ "_" ++ now ++ "." ++ ext) = false := by
  have h0 : (tool ++ "_").data ≠ [] := data_ne_nil_append_right tool (by decide)
  have h1 : (tool ++ "_" ++ c).data ≠ [] := data_ne_nil_append_left _ h0
  have h2 : (tool ++ "_" ++ c ++ "_").data ≠ [] := data_ne_nil_append_right _ (by decide)
  have h3 : (tool ++ "_" ++ c ++ "_" ++ now).data ≠ [] := data_ne_nil_append_left _ h2
  have h4 : (tool ++ "_" ++ c ++ "_" ++ now ++ ".").data ≠ [] :=
    data_ne_nil_append_right _ (by decide)
  rw [isAbs_append_left _ h4, isAbs_append_left _ h3, isAbs_append_left _ h2,
      isAbs_append_left _ h1, isAbs_append_left _ h0]
  exact isAbs_append_underscore h

lemma pathJoin_length_lt {a b : String} (ha : a ≠ "") (hb : isAbs b = false) :
    b.length < (pathJoin a b).length := by
  have hlen : 0 < a.length := length_pos_of_ne_empty ha
  unfold pathJoin
  rw [if_neg (by simp [hb])]
  split
  · rw [String.length_append]
    omega
  · rw [String.length_append, String.length_append]
    have : ("/" : String).length = 1 := rfl
    omega

/-- C10: the tools' second join is harmless exactly because the output
path is absolute: joining the directory onto the already-joined file path
returns the file path unchanged when the directory is absolute, while for
a relative (nonempty, relative-tag) directory the two paths differ. -/
theorem output_file_double_join (tool text output_path extension : String)
    (full_id : Bool) (now : String) :
    (isAbs output_path = true →
      pathJoin output_path (make_output_file tool text output_path extension full_id now)
        = make_output_file tool text output_path extension full_id now)
    ∧ (isAbs output_path = false → output_path ≠ "" → isAbs tool = false →
      pathJoin output_path (make_output_file tool text output_path extension full_id now)
        ≠ make_output_file tool text output_path extension full_id now) := by
  have hshape : make_output_file tool text output_path extension full_id now
      = pathJoin output_path
          (tool ++ "_"
            ++ String.mk ((if full_id then text else String.mk (text.data.take 5)).data.map
                  (fun c => if c = ' ' then '_' else c))
            ++ "_" ++ now ++ "." ++ extension) := rfl
  constructor
  · intro habs
    rw [hshape]
    have hj : isAbs (pathJoin output_path
        (tool ++ "_"
          ++ String.mk ((if full_id then text else String.mk (text.data.take 5)).data.map
                (fun c => if c = ' ' then '_' else c))
          ++ "_" ++ now ++ "." ++ extension)) = true :=
      isAbs_pathJoin_left _ habs
    exact pathJoin_absorb hj
  · intro hrel hne htool
    have hname : isAbs (tool ++ "_"
        ++ String.mk ((if full_id then text else String.mk (text.data.take 5)).data.map
              (fun c => if c = ' ' then '_' else c))
        ++ "_" ++ now ++ "." ++ extension) = false :=
      isAbs_name_false tool _ now extension htool
    have hinner : isAbs (make_output_file tool text output_path extension full_id now)
        = false := by
      rw [hshape]
      exact isAbs_pathJoin_rel _ hne hname hrel
    have hlt : (make_output_file tool text output_path extension full_id now).length
        < (pathJoin output_path
            (make_output_file tool text output_path extension full_id now)).length :=
      pathJoin_length_lt hne hinner
    exact ne_of_length_ne (by omega)

/-- Witness for C10: with the absolute directory of the scenario the
second join is the identity, and with a relative directory it is not. -/
theorem output_file_double_join_witness :
    isAbs "/d" = true
      ∧ pathJoin "/d" (make_output_file "tts" "Hi there" "/d" "mp3" false "20250101_000000")
          = make_output_file "tts" "Hi there" "/d" "mp3" false "20250101_000000"
      ∧ pathJoin "rel" (make_output_file "tts" "Hi there" "rel" "mp3" false "20250101_000000")
          ≠ make_output_file "tts" "Hi there" "rel" "mp3" false "20250101_000000" := by
  refine ⟨by rfl, ?_, ?_⟩
  · exact (output_file_double_join "tts" "Hi there" "/d" "mp3" false "20250101_000000").1
      (by rfl)
  · exact (output_file_double_join "tts" "Hi there" "rel" "mp3" false "20250101_000000").2
      (by rfl) (by decide) (by rfl)

/-- C1 counterexample: speech_to_speech issues its voice-search request
before any local validation, so an invocation with a relative input path
and no configured base path fails the local input-file check only after a
remote request has been made: the trace already holds the network event
when the validation error is raised. -/
theorem sts_network_before_local_validation :
    speech_to_speech envAdam "clip.mp3" "Adam" none
      = ([Event.net ("voices.search")],
         .error ("File path must be an absolute path if ELEVENLABS_MCP_BASE_PATH is not set")) := by
  rfl

/-- C1 amended: only the empty-text and mutual-exclusivity checks of
text_to_speech precede every network call (their failures leave an empty
trace); input-file and output-path validation can come after a network
call, and in speech_to_speech every run, in particular every local
validation failure, starts with the voices.search request. -/
theorem tts_early_validation_before_network (env : ServerEnv) (text : String)
    (vn od vid : Option String) :
    (text = "" → text_to_speech env text vn od vid = ([], .error ("Text is required.")))
    ∧ (text ≠ "" → vid.isSome = true → vn.isSome = true →
        text_to_speech env text vn od vid
          = ([], .error ("voice_id and voice_name cannot both be provided.")))
    ∧ (∀ p n odir, (speech_to_speech env p n odir).1.head?
        = some (Event.net ("voices.search"))) := by
  refine ⟨?_, ?_, ?_⟩
  · intro h
    unfold text_to_speech
    rw [if_pos h]
  · intro h1 h2 h3
    unfold text_to_speech
    rw [if_neg h1, if_pos ⟨h2, h3⟩]
  · intro p n odir
    unfold speech_to_speech
    dsimp only
    split
    · rfl
    · split
      · rfl
      · split
        · rfl
        · split <;> rfl

/-- Witness for the amended C1: an empty text is rejected with no network
event in the trace. -/
theorem tts_early_validation_before_network_witness :
    text_to_speech envAdam "" none none none = ([], .error ("Text is required.")) := by
  exact (tts_early_validation_before_network envAdam "" none none none).1 rfl

lemma filterMap_skip_eq (tname t : String) (th : Nat) (sc : String → Nat)
    (hne : ∀ a b : String, pathJoin a b ≠ t) (l : List (String × String)) :
    l.filterMap (fun rf =>
        if rf.2 = tname ∧ pathJoin rf.1 rf.2 = t then none
        else if th ≤ sc rf.2 then some (pathJoin rf.1 rf.2, sc rf.2) else none)
      = (l.map (fun rf => (pathJoin rf.1 rf.2, sc rf.2))).filter (fun ps => th ≤ ps.2) := by
  induction l with
  | nil => rfl
  | cons rf rest ih =>
      rw [List.filterMap_cons, List.map_cons, List.filter_cons]
      rw [if_neg (fun hc => hne rf.1 rf.2 hc.2)]
      by_cases hth : th ≤ sc rf.2
      · rw [if_pos hth, ih]
        simp [hth]
      · rw [if_neg hth, ih]
        simp [hth]

lemma find_similar_eq (score : String → String → Nat) (t d : String) (tree : DirTree)
    (th : Nat) (h : '/' ∉ t.data) :
    find_similar_filenames score t d tree th
      = sortDescBySnd (((walkFiles d tree).map
          (fun rf => (pathJoin rf.1 rf.2, score (baseName t) rf.2))).filter
            (fun ps => th ≤ ps.2)) := by
  unfold find_similar_filenames
  dsimp only
  rw [filterMap_skip_eq (baseName t) t th (score (baseName t))
      (fun a b => pathJoin_ne_of_no_slash a b h)]

lemma try_find_eq (score : String → String → Nat) (t d : String) (tree : DirTree)
    (h : '/' ∉ t.data) :
    try_find_similar_files score t d tree 5 = suggestionListSpec score t d tree := by
  unfold try_find_similar_files suggestionListSpec
  dsimp only
  rw [find_similar_eq score t d tree 70 h]
  by_cases hemp : sortDescBySnd (((walkFiles d tree).map
      (fun rf => (pathJoin rf.1 rf.2, score (baseName t) rf.2))).filter
        (fun ps => 70 ≤ ps.2)) = []
  · rw [if_pos hemp, hemp]
    rfl
  · rw [if_neg hemp]

/-- C4: when the requested path is missing but its parent exists, the
suggestion list in the error is exactly the reference pipeline of the
spec: walk the parent tree, score every filename, keep scores of at least
70, sort descending, cut to the first five, and only then filter to the
recognized audio/video extensions. -/
theorem input_suggestions_match_spec (env : Option String) (fs : Fs) (p : String)
    (acc : Bool) (hpre : ¬(isAbs p = false ∧ envTruthy env = false))
    (h1 : fs.pathExists p = false) (h2 : fs.pathExists (parentPath p) = true) :
    handle_input_file env fs p acc =
      (if suggestionListSpec fs.score (baseName p) (parentPath p)
          (fs.treeAt (parentPath p)) = [] then
        .error ("File (" ++ p ++ ") does not exist")
      else
        .error ("File (" ++ p ++ ") does not exist. Did you mean any of these files: "
          ++ String.intercalate (",")
              (suggestionListSpec fs.score (baseName p) (parentPath p)
                (fs.treeAt (parentPath p)))
          ++ "?")) := by
  unfold handle_input_file
  rw [if_neg hpre, if_pos ⟨h1, h2⟩]
  rw [try_find_eq fs.score (baseName p) (parentPath p) (fs.treeAt (parentPath p))
      (no_slash_baseName p)]
  by_cases hs : suggestionListSpec fs.score (baseName p) (parentPath p)
      (fs.treeAt (parentPath p)) = []
  · simp [hs]
  · simp [hs]

/-- Witness for C4: requesting the missing /d/clip.mp3 while the parent
/d holds clip1.mp3 (score 80) and notes.txt (score 10) suggests exactly
/d/clip1.mp3. -/
theorem input_suggestions_match_spec_witness :
    (¬(isAbs "/d/clip.mp3" = false ∧ envTruthy none = false))
      ∧ fsSuggest.pathExists "/d/clip.mp3" = false
      ∧ fsSuggest.pathExists (parentPath "/d/clip.mp3") = true
      ∧ suggestionListSpec fsSuggest.score (baseName "/d/clip.mp3")
          (parentPath "/d/clip.mp3") (fsSuggest.treeAt (parentPath "/d/clip.mp3"))
          = ["/d/clip1.mp3"]
      ∧ handle_input_file none fsSuggest "/d/clip.mp3" true =
          (if suggestionListSpec fsSuggest.score (baseName "/d/clip.mp3")
              (parentPath "/d/clip.mp3") (fsSuggest.treeAt (parentPath "/d/clip.mp3")) = [] then
            .error ("File (/d/clip.mp3) does not exist")
          else
            .error ("File (/d/clip.mp3) does not exist. Did you mean any of these files: "
              ++ String.intercalate (",")
                  (suggestionListSpec fsSuggest.score (baseName "/d/clip.mp3")
                    (parentPath "/d/clip.mp3") (fsSuggest.treeAt (parentPath "/d/clip.mp3")))
              ++ "?")) := by
  refine ⟨by decide, by rfl, by decide, by rfl, ?_⟩
  exact input_suggestions_match_spec none fsSuggest "/d/clip.mp3" true
    (by decide) (by rfl) (by decide)

end ElevenLabsMcp
